import Mathlib

/-!
Verification of the Lie-Dar signal-processing and fusion pipeline.

This file gives a shallow embedding of the scoring core of the repository
(`src/logic_engine.py`, `src/bpm_estimator.py`, `src/facial_analysis.py`,
`src/voice_stress.py`, plus the display defaults of `main.py` /
`main_gui.py`) and proves the specified properties about it.

Modelling conventions:
- Python floats are modelled as exact rationals (`ℚ`); where the source
  takes a square root (`np.std`, RMS energy) the embedding works over `ℝ`
  with `Real.sqrt`.
- Python `deque(maxlen=n)` appends, and the explicit append-then-pop on
  `LogicEngine.honesty_history`, are both modelled by `pushHistory`.
- Fallible paths (Python exceptions) are modelled with `Except`.
-/

namespace LieDar

/-- Bounded FIFO append: models `deque(maxlen=cap).append(x)` and the
`history.append(x); if len(history) > cap: history.pop(0)` pattern of
`LogicEngine.calculate_honesty_score`. When the list is within its bound,
at most one element is evicted from the front. -/
def pushHistory {α : Type} (cap : Nat) (h : List α) (x : α) : List α :=
  let h2 := h ++ [x]
  if cap < h2.length then h2.tail else h2

/-- Arithmetic mean of a list of rationals, `np.mean` on a nonempty list. -/
def listMean (l : List ℚ) : ℚ := l.sum / l.length

namespace Engine

/-- `AlertLevel` enum of `logic_engine.py`. -/
inductive AlertLevel
  | highStress
  | mediumStress
  | lowStress
deriving DecidableEq

/-- Mutable state of a `LogicEngine` object: the three modality weights and
the honesty-score smoothing history (`self.honesty_history`,
`self.max_history = 10`). -/
structure State where
  facialWeight : ℚ
  voiceWeight : ℚ
  pulseWeight : ℚ
  honestyHistory : List ℚ
deriving DecidableEq

/-- `self.max_history = 10` in `LogicEngine.__init__`. -/
def maxHistory : Nat := 10

/-- `np.clip(x, lo, hi)` for `lo ≤ hi`. -/
def clip (lo hi x : ℚ) : ℚ := min (max x lo) hi

/-- `LogicEngine.calculate_honesty_score`: clip the three stress inputs to
[0, 100], form the weighted combined stress, invert to an instantaneous
honesty score, push it into the smoothing history (capacity 10), and return
the mean of the history together with the updated state. -/
def calculate_honesty_score (s : State) (facialStress voiceStress pulseStress : ℚ) :
    ℚ × State :=
  let f := clip 0 100 facialStress
  let v := clip 0 100 voiceStress
  let p := clip 0 100 pulseStress
  let combinedStress := s.facialWeight * f + s.voiceWeight * v + s.pulseWeight * p
  let honestyScore := 100 - combinedStress
  let hist := pushHistory maxHistory s.honestyHistory honestyScore
  (listMean hist, { s with honestyHistory := hist })

/-- `LogicEngine.get_alert_level`: pure threshold classification of an
honesty score. -/
def get_alert_level (honestyScore : ℚ) : AlertLevel :=
  if honestyScore < 40 then .highStress
  else if honestyScore < 60 then .mediumStress
  else .lowStress

/-- Result record of `LogicEngine.analyze` (the numeric fields of the
returned dictionary; the interpretation string is a deterministic template
per alert level and is not modelled). -/
structure AnalysisResult where
  honestyScore : ℚ
  alertLevel : AlertLevel
  facialContribution : ℚ
  voiceContribution : ℚ
  pulseContribution : ℚ
  facialRaw : ℚ
  voiceRaw : ℚ
  pulseRaw : ℚ
deriving DecidableEq

/-- `LogicEngine.analyze`: calls `calculate_honesty_score`, classifies the
result, and reports the raw and weighted component scores. -/
def analyze (s : State) (facialStress voiceStress pulseStress : ℚ) :
    AnalysisResult × State :=
  let r := calculate_honesty_score s facialStress voiceStress pulseStress
  ({ honestyScore := r.1
     alertLevel := get_alert_level r.1
     facialContribution := facialStress * s.facialWeight
     voiceContribution := voiceStress * s.voiceWeight
     pulseContribution := pulseStress * s.pulseWeight
     facialRaw := facialStress
     voiceRaw := voiceStress
     pulseRaw := pulseStress }, r.2)

/-- `LogicEngine.reset`: clears the honesty-score history only. -/
def reset (s : State) : State :=
  { s with honestyHistory := [] }

/-- `LogicEngine.update_weights`: overwrite the supplied subset of weights,
then renormalize all three by their sum. Models the non-exceptional path
(in the source a zero total would raise `ZeroDivisionError`). -/
def update_weights (s : State) (facial voice pulse : Option ℚ) : State :=
  let fw := facial.getD s.facialWeight
  let vw := voice.getD s.voiceWeight
  let pw := pulse.getD s.pulseWeight
  let total := fw + vw + pw
  { s with
      facialWeight := fw / total
      voiceWeight := vw / total
      pulseWeight := pw / total }

end Engine

namespace Bpm

/-- `np.median` on a nonempty list of rationals: sort ascending, take the
middle element, averaging the two middle elements when the length is even. -/
def median (l : List ℚ) : ℚ :=
  let s := List.insertionSort (fun a b => a ≤ b) l
  let n := s.length
  if n = 0 then 0
  else if n % 2 = 1 then s.getD (n / 2) 0
  else (s.getD (n / 2 - 1) 0 + s.getD (n / 2) 0) / 2

/-- Mutable state of a `BPM_Estimator` object: the configuration (`fps`,
`buffer_seconds`), the PPG signal buffer (`deque(maxlen=fps*buffer_seconds)`),
the raw-BPM smoothing history (`deque(maxlen=10)`), and the current smoothed
BPM estimate. -/
structure State where
  fps : Nat
  bufferSeconds : Nat
  signalBuffer : List ℚ
  bpmHistory : List ℚ
  currentBpm : ℚ
deriving DecidableEq

/-- `BPM_Estimator.__init__` with empty buffers and `current_bpm = 0.0`. -/
def initState (fps bufferSeconds : Nat) : State :=
  { fps := fps, bufferSeconds := bufferSeconds
    signalBuffer := [], bpmHistory := [], currentBpm := 0 }

/-- The diagnostic part of the `(bpm, metrics)` pair returned by
`BPM_Estimator.process_frame`: the error dictionary when ROI extraction
fails, the buffering dictionary with its fill progress, or the full metrics
dictionary of the active path. -/
inductive Status
  | roiError
  | buffering (progress : ℚ)
  | metrics (rawBpm : ℚ) (stressScore : ℚ) (bufferSize : Nat) (qualityGood : Bool)
deriving DecidableEq

/-- The stress computation written inline in `BPM_Estimator.process_frame`
(lines 267-271): `> 90` scales linearly to 100 at 130 BPM, `< 50` is a fixed
20, otherwise 0. Unlike `get_stress_score` it has no guard for a zero BPM. -/
def inlineStressScore (bpm : ℚ) : ℚ :=
  if bpm > 90 then min 100 ((bpm - 90) / 40 * 100)
  else if bpm < 50 then 20
  else 0

/-- `BPM_Estimator.process_frame`. The image-processing front end
(`_extract_forehead_roi` composed with `_extract_ppg_signal`) is abstracted
as the optional input `ppg`: `none` when extraction fails (no landmarks, or
an empty computed region), `some v` when it yields the spatial mean green
intensity `v`. The frequency-domain back end (`scipy.signal.detrend`, the
Butterworth `filtfilt` bandpass of `_apply_bandpass_filter`, and the FFT
peak picking of `_estimate_bpm_fft`) is abstracted as the function `est`
from the buffered signal to the raw BPM; the claims proved below hold for
every such function. The control flow — early return on extraction failure,
append to the signal buffer, the `fps * 5` minimum-fill check with its
progress report, the median smoothing over the last 10 raw estimates, and
the inline stress metrics — is translated directly. -/
def process_frame (est : List ℚ → ℚ) (s : State) (ppg : Option ℚ) :
    (ℚ × Status) × State :=
  match ppg with
  | none => ((s.currentBpm, .roiError), s)
  | some v =>
    let buf := pushHistory (s.fps * s.bufferSeconds) s.signalBuffer v
    let s1 : State := { s with signalBuffer := buf }
    let minBufferSize := s.fps * 5
    if buf.length < minBufferSize then
      ((0, .buffering ((buf.length : ℚ) / (minBufferSize : ℚ) * 100)), s1)
    else
      let rawBpm := est buf
      let hist := pushHistory 10 s1.bpmHistory rawBpm
      let cur := median hist
      let s2 : State := { s1 with bpmHistory := hist, currentBpm := cur }
      let stress := inlineStressScore cur
      let quality : Bool := if 50 ≤ cur ∧ cur ≤ 180 then true else false
      ((cur, .metrics rawBpm stress buf.length quality), s2)

/-- `BPM_Estimator.get_stress_score`: like the inline computation, but with
an explicit early return of 0 when `current_bpm == 0`. -/
def get_stress_score (s : State) : ℚ :=
  if s.currentBpm = 0 then 0
  else if s.currentBpm > 90 then min 100 ((s.currentBpm - 90) / 40 * 100)
  else if s.currentBpm < 50 then 20
  else 0

/-- `BPM_Estimator.reset`: clear both buffers and zero the estimate. -/
def reset (s : State) : State :=
  { s with signalBuffer := [], bpmHistory := [], currentBpm := 0 }

/-- One mutation of a `BPM_Estimator` object: a `process_frame` call (with
any extraction outcome and any spectral back end) or a `reset`. -/
inductive Step : State → State → Prop
  | frame (est : List ℚ → ℚ) (ppg : Option ℚ) (s : State) :
      Step s (process_frame est s ppg).2
  | reset (s : State) : Step s (reset s)

/-- States an estimator object can be in: everything reachable from a
freshly constructed object by `process_frame` and `reset` calls. -/
def Reachable (fps bufferSeconds : Nat) (s : State) : Prop :=
  Relation.ReflTransGen Step (initState fps bufferSeconds) s

end Bpm

/-- Arithmetic mean of a list of reals, `np.mean` on a nonempty list. -/
noncomputable def listMeanR (l : List ℝ) : ℝ := l.sum / l.length

/-- Population standard deviation `np.std`: the square root of the mean
squared deviation from the mean. -/
noncomputable def listStdR (l : List ℝ) : ℝ :=
  Real.sqrt ((l.map (fun x => (x - listMeanR l) ^ 2)).sum / l.length)

/-- The epsilon `1e-6` added to denominators throughout the source. -/
noncomputable def eps : ℝ := 1 / 1000000

namespace Facial

/-- `FacialAnalysis._compute_anomaly_score`: with fewer than 5 history
samples the score is 0; otherwise it is the absolute z-score of the current
value against the history mean and (epsilon-padded) standard deviation,
divided by the sensitivity, scaled to 0-100 and capped at 100. -/
noncomputable def compute_anomaly_score (sensitivity : ℝ) (currentValue : ℝ)
    (history : List ℝ) : ℝ :=
  if history.length < 5 then 0
  else
    let baseline := listMeanR history
    let stdDev := listStdR history + eps
    let zScore := |currentValue - baseline| / stdDev
    min 100 (zScore / sensitivity * 100)

/-- The per-metric portion of `FacialAnalysis.analyze_frame` for the eyebrow
and lip metrics: the current value is appended to the metric's rolling
window (`deque(maxlen=window_size)`, default capacity 30) first, and the
anomaly score is then computed against that same window. Returns the score
together with the updated window. -/
noncomputable def metricStep (sensitivity : ℝ) (windowSize : Nat)
    (window : List ℝ) (currentValue : ℝ) : ℝ × List ℝ :=
  let w := pushHistory windowSize window currentValue
  (compute_anomaly_score sensitivity currentValue w, w)

end Facial

namespace Voice

/-- Outcome of a `librosa.pyin` call, as consumed by `_extract_pitch` and
`_calculate_jitter`: the per-frame `f0` array (`none` marking a NaN entry)
and the per-frame voiced flags. The call itself may raise, so call sites
receive an `Except` of this data. -/
structure PyinData where
  f0 : List (Option ℝ)
  voiced : List Bool

/-- `VoiceStress._extract_pitch`: keep the voiced frames, drop NaN entries,
and return the mean and standard deviation of the surviving pitch values
(or (0, 0) when none survive). The `librosa.pyin` call is not wrapped in
any exception handler, so a raising call propagates. -/
noncomputable def extract_pitch (pyin : Except Unit PyinData) :
    Except Unit (ℝ × ℝ) :=
  match pyin with
  | .error e => .error e
  | .ok d =>
    let voicedF0 := (d.f0.zip d.voiced).filterMap
      (fun p => if p.2 then some p.1 else none)
    if voicedF0.length = 0 then .ok (0, 0)
    else
      let vals := voicedF0.filterMap id
      if vals.length = 0 then .ok (0, 0)
      else .ok (listMeanR vals, listStdR vals)

/-- `VoiceStress._calculate_jitter`: the whole body sits inside a
`try/except` that returns 0 on any exception, so a raising `librosa.pyin`
call yields jitter 0. Otherwise: drop NaN entries, require at least 2
frames, convert frequencies to periods with an epsilon-padded reciprocal,
and return the mean absolute consecutive period difference normalized by
the mean period, as a percentage capped at 100. -/
noncomputable def calculate_jitter (pyin : Except Unit PyinData) : ℝ :=
  match pyin with
  | .error _ => 0
  | .ok d =>
    let f0 := d.f0.filterMap id
    if f0.length < 2 then 0
    else
      let periods := f0.map (fun f => 1 / (f + eps))
      let periodDiffs := (periods.zip periods.tail).map (fun p => |p.1 - p.2|)
      let meanPeriod := listMeanR periods
      let jitter := listMeanR periodDiffs / meanPeriod * 100
      min jitter 100

/-- `VoiceStress._calculate_shimmer`: consumes the frame-wise RMS amplitudes
computed by `librosa.feature.rms`. The call is not wrapped in an exception
handler, so a raising call propagates. Otherwise: require at least 2 frames,
guard a near-zero mean amplitude, and return the mean absolute consecutive
amplitude difference normalized by the mean, as a percentage capped at 100. -/
noncomputable def calculate_shimmer (rms : Except Unit (List ℝ)) :
    Except Unit ℝ :=
  match rms with
  | .error e => .error e
  | .ok r =>
    if r.length < 2 then .ok 0
    else
      let amplitudeDiffs := (r.zip r.tail).map (fun p => |p.1 - p.2|)
      let meanAmplitude := listMeanR r
      if meanAmplitude < eps then .ok 0
      else .ok (min (listMeanR amplitudeDiffs / meanAmplitude * 100) 100)

/-- `VoiceStress._calculate_energy`: RMS of the chunk. Pure arithmetic, no
exception path. -/
noncomputable def calculate_energy (chunk : List ℝ) : ℝ :=
  Real.sqrt (listMeanR (chunk.map (fun x => x ^ 2)))

/-- `np.median` over reals (sort ascending, middle element, averaging the
two middle elements for an even length). -/
noncomputable def medianR (l : List ℝ) : ℝ :=
  let s := List.insertionSort (fun a b => a ≤ b) l
  let n := s.length
  if n = 0 then 0
  else if n % 2 = 1 then s.getD (n / 2) 0
  else (s.getD (n / 2 - 1) 0 + s.getD (n / 2) 0) / 2

/-- The feature histories of a `VoiceStress` object (`deque(maxlen=30)`
each). -/
structure State where
  pitchHistory : List ℝ
  jitterHistory : List ℝ
  shimmerHistory : List ℝ
  energyHistory : List ℝ

/-- The `(stress_score, metrics)` outcome of a completed
`VoiceStress.analyze_audio` call: either the buffering status with its fill
progress, or the stress score with the extracted features. -/
inductive Result
  | buffering (progress : ℝ)
  | scored (stressScore pitchMean pitchStd jitter shimmer energy : ℝ)

/-- `VoiceStress.analyze_audio`. The audio buffer is the list of captured
samples; `chunkSize` is `int(sample_rate * chunk_duration)`. The two
`librosa.pyin` calls (one inside `_extract_pitch`, one inside
`_calculate_jitter`) and the `librosa.feature.rms` call are abstracted as
the `Except`-valued inputs `pyinPitch`, `pyinJitter` and `rms`; everything
else — the buffering check with its progress report, peak normalization of
the trailing chunk, feature extraction, the voiced-only history pushes, and
the stress composition — is translated directly. An `Except.error` result
is an exception propagating out of the call. -/
noncomputable def analyze_audio (chunkSize : Nat) (buffer : List ℝ)
    (pyinPitch pyinJitter : Except Unit PyinData) (rms : Except Unit (List ℝ))
    (s : State) : Except Unit (Result × State) :=
  if buffer.length < chunkSize then
    .ok (.buffering ((buffer.length : ℝ) / (chunkSize : ℝ) * 100), s)
  else
    let chunkRaw := buffer.drop (buffer.length - chunkSize)
    let peak := (chunkRaw.map (fun x => |x|)).foldr max 0
    let chunk := if 0 < peak then chunkRaw.map (fun x => x / peak) else chunkRaw
    match extract_pitch pyinPitch with
    | .error e => .error e
    | .ok pitch =>
      let pitchMean := pitch.1
      let pitchStd := pitch.2
      let jitter := calculate_jitter pyinJitter
      match calculate_shimmer rms with
      | .error e => .error e
      | .ok shimmer =>
        let energy := calculate_energy chunk
        let s1 : State :=
          if 0 < pitchMean then
            { pitchHistory := pushHistory 30 s.pitchHistory pitchStd
              jitterHistory := pushHistory 30 s.jitterHistory jitter
              shimmerHistory := pushHistory 30 s.shimmerHistory shimmer
              energyHistory := pushHistory 30 s.energyHistory energy }
          else s
        let pitchComponent : List ℝ :=
          if 5 < s1.pitchHistory.length then
            let baselinePitchStd := medianR s1.pitchHistory
            if 0 < baselinePitchStd then
              [min 100 (pitchStd / baselinePitchStd * 50)]
            else []
          else []
        let jitterStress := min 100 (jitter / 2 * 100)
        let shimmerStress := min 100 (shimmer / 5 * 100)
        let stressComponents := pitchComponent ++ [jitterStress, shimmerStress]
        let stressScore := listMeanR stressComponents
        .ok (.scored stressScore pitchMean pitchStd jitter shimmer energy, s1)

end Voice

/-- Initial `current_results["honesty_score"]` of `LieDarSystem.__init__`
in `main.py`: the honesty score displayed before any analysis tick. -/
def initialResultsHonesty : ℚ := 50

/-- Displayed honesty score held by the GUI main window (`main_gui.py`). -/
structure GuiState where
  honestyScore : ℚ
deriving DecidableEq

/-- The honesty part of `MainWindow.reset` in `main_gui.py`:
`self.honesty_score = 50.0`. -/
def guiReset (_g : GuiState) : GuiState :=
  { honestyScore := 50 }

/-! ### Helper lemmas -/

lemma clip_idem (x : ℚ) : Engine.clip 0 100 (Engine.clip 0 100 x) = Engine.clip 0 100 x := by
  unfold Engine.clip
  have h1 : (0 : ℚ) ≤ min (max x 0) 100 :=
    le_min (le_max_right x 0) (by norm_num)
  rw [max_eq_left h1, min_eq_left (min_le_right _ _)]

lemma clip_of_range {x : ℚ} (h0 : 0 ≤ x) (h1 : x ≤ 100) : Engine.clip 0 100 x = x := by
  unfold Engine.clip
  rw [max_eq_left h0, min_eq_left h1]

lemma pushHistory_length {α : Type} (cap : Nat) (h : List α) (x : α) :
    (pushHistory cap h x).length =
      if cap < h.length + 1 then h.length else h.length + 1 := by
  unfold pushHistory
  split_ifs with hc
  · simp at hc
    simp [hc]
  · simp at hc
    simp [Nat.not_lt.mpr hc]

lemma pushHistory_length_ge {α : Type} (cap : Nat) (h : List α) (x : α) :
    h.length ≤ (pushHistory cap h x).length := by
  rw [pushHistory_length]
  split_ifs <;> omega

/-! ### C1: weighted fusion, clamping and smoothing of the honesty score -/

/-- C1: every `calculate_honesty_score` call (also via `analyze`) clamps its
three stress inputs to [0, 100], combines them with the current weights,
inverts to `100 - combined`, and pushes that instantaneous honesty into the
capacity-10 smoothing history whose mean is returned; with weights
(0.4, 0.3, 0.3) and an empty history, inputs (30, 25, 20) give combined
stress 25.5 and smoothed honesty 74.5. -/
theorem fusion_honesty_spec : ∀ (s : Engine.State) (f v p : ℚ),
    ((Engine.calculate_honesty_score s f v p).2.honestyHistory =
      pushHistory Engine.maxHistory s.honestyHistory
        (100 - (s.facialWeight * Engine.clip 0 100 f +
                s.voiceWeight * Engine.clip 0 100 v +
                s.pulseWeight * Engine.clip 0 100 p))) ∧
    ((Engine.calculate_honesty_score s f v p).1 =
      listMean (Engine.calculate_honesty_score s f v p).2.honestyHistory) ∧
    (Engine.calculate_honesty_score s f v p =
      Engine.calculate_honesty_score s
        (Engine.clip 0 100 f) (Engine.clip 0 100 v) (Engine.clip 0 100 p)) ∧
    ((Engine.analyze s f v p).1.honestyScore =
      (Engine.calculate_honesty_score s f v p).1) ∧
    (s.honestyHistory = [] → 0 ≤ f → f ≤ 100 → 0 ≤ v → v ≤ 100 → 0 ≤ p → p ≤ 100 →
      (Engine.calculate_honesty_score s f v p).1 =
        100 - (s.facialWeight * f + s.voiceWeight * v + s.pulseWeight * p)) ∧
    ((Engine.calculate_honesty_score ⟨2/5, 3/10, 3/10, []⟩ 30 25 20).1 = 149/2 ∧
     (2/5 : ℚ) * 30 + (3/10 : ℚ) * 25 + (3/10 : ℚ) * 20 = 51/2 ∧
     (100 : ℚ) - 51/2 = 149/2) := by
  intro s f v p
  refine ⟨rfl, rfl, ?_, rfl, ?_, ?_, by norm_num, by norm_num⟩
  · simp [Engine.calculate_honesty_score, clip_idem]
  · intro hh hf0 hf1 hv0 hv1 hp0 hp1
    simp [Engine.calculate_honesty_score, clip_of_range hf0 hf1,
      clip_of_range hv0 hv1, clip_of_range hp0 hp1, hh, pushHistory,
      Engine.maxHistory, listMean]
  · norm_num [Engine.calculate_honesty_score, Engine.clip, pushHistory,
      Engine.maxHistory, listMean]

/-- C1 witness: the clamped-formula conjunct applied at the Scenario A
inputs on an engine with weights (0.4, 0.3, 0.3) and empty history. -/
theorem fusion_honesty_spec_witness :
    (Engine.calculate_honesty_score ⟨2/5, 3/10, 3/10, []⟩ 30 25 20).1 =
      100 - ((2/5 : ℚ) * 30 + (3/10 : ℚ) * 25 + (3/10 : ℚ) * 20) :=
  (fusion_honesty_spec ⟨2/5, 3/10, 3/10, []⟩ 30 25 20).2.2.2.2.1
    rfl (by norm_num) (by norm_num) (by norm_num) (by norm_num) (by norm_num)
    (by norm_num)

/-! ### C2: weight updates renormalize to sum 1 -/

/-- C2: after an `update_weights` call setting any subset of the weights
with non-negative values whose (post-overwrite) total is positive, the
three stored weights sum to exactly 1, hence to 1 within the 1e-6
tolerance. -/
theorem update_weights_normalizes (s : Engine.State) (facial voice pulse : Option ℚ)
    (hf : 0 ≤ facial.getD s.facialWeight)
    (hv : 0 ≤ voice.getD s.voiceWeight)
    (hp : 0 ≤ pulse.getD s.pulseWeight)
    (hpos : 0 < facial.getD s.facialWeight + voice.getD s.voiceWeight +
      pulse.getD s.pulseWeight) :
    (Engine.update_weights s facial voice pulse).facialWeight +
      (Engine.update_weights s facial voice pulse).voiceWeight +
      (Engine.update_weights s facial voice pulse).pulseWeight = 1 ∧
    |(Engine.update_weights s facial voice pulse).facialWeight +
      (Engine.update_weights s facial voice pulse).voiceWeight +
      (Engine.update_weights s facial voice pulse).pulseWeight - 1| ≤ 1/1000000 := by
  have hsum : (Engine.update_weights s facial voice pulse).facialWeight +
      (Engine.update_weights s facial voice pulse).voiceWeight +
      (Engine.update_weights s facial voice pulse).pulseWeight = 1 := by
    simp only [Engine.update_weights]
    rw [div_add_div_same, div_add_div_same, div_self (ne_of_gt hpos)]
  exact ⟨hsum, by rw [hsum]; norm_num⟩

/-- C2 witness: redistributing all weight away from the facial modality
(facial 0, voice 0.6, pulse 0.4, the convention of the spec) leaves the
weights summing to 1. -/
theorem update_weights_normalizes_witness :
    (Engine.update_weights ⟨2/5, 3/10, 3/10, []⟩ (some 0) (some (3/5)) (some (2/5))).facialWeight +
      (Engine.update_weights ⟨2/5, 3/10, 3/10, []⟩ (some 0) (some (3/5)) (some (2/5))).voiceWeight +
      (Engine.update_weights ⟨2/5, 3/10, 3/10, []⟩ (some 0) (some (3/5)) (some (2/5))).pulseWeight = 1 :=
  (update_weights_normalizes ⟨2/5, 3/10, 3/10, []⟩ (some 0) (some (3/5)) (some (2/5))
    (by norm_num) (by norm_num) (by norm_num) (by norm_num)).1

/-! ### C3: alert-level thresholds -/

/-- C3: `get_alert_level` is a pure threshold function: scores below 40 are
high stress, scores in [40, 60) are medium stress, scores of 60 and above
are low stress; in particular 39.99 is high, 40 is medium, 59.99 is medium
and 60 is low. -/
theorem alert_level_thresholds : ∀ x : ℚ,
    (x < 40 → Engine.get_alert_level x = .highStress) ∧
    (40 ≤ x → x < 60 → Engine.get_alert_level x = .mediumStress) ∧
    (60 ≤ x → Engine.get_alert_level x = .lowStress) ∧
    Engine.get_alert_level (39.99 : ℚ) = .highStress ∧
    Engine.get_alert_level 40 = .mediumStress ∧
    Engine.get_alert_level (59.99 : ℚ) = .mediumStress ∧
    Engine.get_alert_level 60 = .lowStress := by
  intro x
  refine ⟨?_, ?_, ?_, by norm_num [Engine.get_alert_level],
    by norm_num [Engine.get_alert_level], by norm_num [Engine.get_alert_level],
    by norm_num [Engine.get_alert_level]⟩
  · intro h1
    unfold Engine.get_alert_level
    split_ifs <;> first | rfl | linarith
  · intro h1 h2
    unfold Engine.get_alert_level
    split_ifs <;> first | rfl | linarith
  · intro h1
    unfold Engine.get_alert_level
    split_ifs <;> first | rfl | linarith

/-- C3 witness: the three threshold cases applied at 39.99, 40 and 60. -/
theorem alert_level_thresholds_witness :
    Engine.get_alert_level (39.99 : ℚ) = .highStress ∧
    Engine.get_alert_level 40 = .mediumStress ∧
    Engine.get_alert_level 60 = .lowStress :=
  ⟨(alert_level_thresholds (39.99 : ℚ)).1 (by norm_num),
   (alert_level_thresholds 40).2.1 (by norm_num) (by norm_num),
   (alert_level_thresholds 60).2.2.1 (by norm_num)⟩

/-! ### C4: reset clears the history, preserves weights, neutral default -/

/-- C4: `LogicEngine.reset` empties the honesty smoothing history and leaves
all three configured weights unchanged; the honesty value the application
layer holds when no sample exists is the neutral midpoint 50 (the initial
`current_results` honesty of `main.py` and the value the GUI reset handler
restores). -/
theorem reset_clears_history_preserves_weights :
    ∀ (s : Engine.State) (g : GuiState),
    (Engine.reset s).honestyHistory = [] ∧
    (Engine.reset s).facialWeight = s.facialWeight ∧
    (Engine.reset s).voiceWeight = s.voiceWeight ∧
    (Engine.reset s).pulseWeight = s.pulseWeight ∧
    (guiReset g).honestyScore = 50 ∧
    initialResultsHonesty = 50 := by
  intro s g
  exact ⟨rfl, rfl, rfl, rfl, rfl, rfl⟩

/-! ### C5: pulse stress score (corrected: the zero-BPM guard) -/

/-- C5 counterexample: a freshly constructed estimator has a smoothed BPM of
0, which is below 50, yet `get_stress_score` returns 0, not the fixed 20 the
claim requires for every BPM below 50. -/
theorem pulse_stress_zero_bpm_counterexample :
    (Bpm.initState 30 10).currentBpm < 50 ∧
    Bpm.get_stress_score (Bpm.initState 30 10) = 0 ∧
    Bpm.get_stress_score (Bpm.initState 30 10) ≠ 20 := by
  refine ⟨by norm_num [Bpm.initState], rfl, by norm_num [Bpm.get_stress_score, Bpm.initState]⟩

/-- C5 amended: `get_stress_score` is `min(100, (BPM-90)/40*100)` for BPM
above 90, exactly 20 for a nonzero BPM below 50, and 0 otherwise — in
particular 0 (not 20) when the smoothed BPM is exactly 0; BPM 95 gives
12.5, BPM 45 gives 20 and BPM 75 gives 0. -/
theorem pulse_stress_score_spec : ∀ s : Bpm.State,
    (90 < s.currentBpm →
      Bpm.get_stress_score s = min 100 ((s.currentBpm - 90) / 40 * 100)) ∧
    (s.currentBpm ≠ 0 → s.currentBpm < 50 → Bpm.get_stress_score s = 20) ∧
    (s.currentBpm = 0 → Bpm.get_stress_score s = 0) ∧
    (50 ≤ s.currentBpm → s.currentBpm ≤ 90 → Bpm.get_stress_score s = 0) ∧
    (s.currentBpm = 95 → Bpm.get_stress_score s = 25/2) ∧
    (s.currentBpm = 45 → Bpm.get_stress_score s = 20) ∧
    (s.currentBpm = 75 → Bpm.get_stress_score s = 0) := by
  intro s
  refine ⟨?_, ?_, ?_, ?_, ?_, ?_, ?_⟩ <;>
    (intro h1
     try intro h2
     unfold Bpm.get_stress_score)
  · split_ifs <;> first | rfl | linarith
  · split_ifs with hz hq <;> first | rfl | linarith | (exact absurd hz h1)
  · split_ifs <;> first | rfl | linarith | tauto
  · split_ifs <;> first | rfl | linarith
  · rw [h1]; norm_num
  · rw [h1]; norm_num
  · rw [h1]; norm_num

/-- C5 witness: the amended cases evaluated at smoothed BPM values 95, 45
and 75. -/
theorem pulse_stress_score_spec_witness :
    Bpm.get_stress_score ⟨30, 10, [], [], 95⟩ = 25/2 ∧
    Bpm.get_stress_score ⟨30, 10, [], [], 45⟩ = 20 ∧
    Bpm.get_stress_score ⟨30, 10, [], [], 75⟩ = 0 :=
  ⟨(pulse_stress_score_spec ⟨30, 10, [], [], 95⟩).2.2.2.2.1 rfl,
   (pulse_stress_score_spec ⟨30, 10, [], [], 45⟩).2.2.2.2.2.1 rfl,
   (pulse_stress_score_spec ⟨30, 10, [], [], 75⟩).2.2.2.2.2.2 rfl⟩

/-! ### C6: facial anomaly scores -/

/-- C6: for the eyebrow and lip metrics the current value is pushed into the
capacity-30 rolling window before scoring; with fewer than 5 samples in the
window the anomaly score is 0 regardless of the current value, and otherwise
it is the capped scaled absolute z-score of the current value against that
window. -/
theorem facial_anomaly_spec : ∀ (sens x : ℝ) (w : List ℝ),
    ((Facial.metricStep sens 30 w x).2 = pushHistory 30 w x) ∧
    ((pushHistory 30 w x).length < 5 → (Facial.metricStep sens 30 w x).1 = 0) ∧
    (5 ≤ (pushHistory 30 w x).length →
      (Facial.metricStep sens 30 w x).1 =
        min 100 ((|x - listMeanR (pushHistory 30 w x)| /
          (listStdR (pushHistory 30 w x) + eps)) / sens * 100)) ∧
    (w.length < 4 → (Facial.metricStep sens 30 w x).1 = 0) := by
  intro sens x w
  refine ⟨rfl, ?_, ?_, ?_⟩
  · intro h
    simp [Facial.metricStep, Facial.compute_anomaly_score, h]
  · intro h
    simp [Facial.metricStep, Facial.compute_anomaly_score, Nat.not_lt.mpr h]
  · intro h
    have hlen : (pushHistory 30 w x).length < 5 := by
      rw [pushHistory_length]
      split_ifs <;> omega
    simp [Facial.metricStep, Facial.compute_anomaly_score, hlen]

/-- C6 witness: with an empty history window (so a single sample after the
push) the anomaly score of an arbitrary current value 42 is 0. -/
theorem facial_anomaly_spec_witness :
    (Facial.metricStep 2 30 [] 42).1 = 0 :=
  (facial_anomaly_spec 2 42 []).2.2.2 (by simp)

/-- A nonzero smoothed BPM estimate is only ever produced once the signal
buffer has reached the `fps * 5` minimum fill: this holds in every state an
estimator object can reach. -/
lemma bpm_reachable_invariant {fps bufferSeconds : Nat} {s : Bpm.State}
    (h : Bpm.Reachable fps bufferSeconds s) :
    s.currentBpm ≠ 0 → s.fps * 5 ≤ s.signalBuffer.length := by
  induction h with
  | refl =>
    intro hc
    exact absurd rfl hc
  | tail hab step ih =>
    rename_i b c
    cases step with
    | reset d =>
      intro hc
      simp [Bpm.reset] at hc
    | frame est ppg d =>
      cases ppg with
      | none =>
        simpa [Bpm.process_frame] using ih
      | some v =>
        simp only [Bpm.process_frame]
        by_cases hlen :
          (pushHistory (b.fps * b.bufferSeconds) b.signalBuffer v).length < b.fps * 5
        · rw [if_pos hlen]
          intro hc
          simp only at hc ⊢
          exact le_trans (ih hc) (pushHistory_length_ge _ _ _)
        · rw [if_neg hlen]
          intro _
          simpa using Nat.not_lt.mp hlen

/-! ### C7: buffering before the minimum fill -/

/-- C7: while the signal buffer (after the current append) holds fewer than
`fps * 5` samples, `process_frame` returns BPM 0 together with the buffering
status carrying progress `buffered / required * 100`; and in every reachable
state, any `process_frame` call that returns a nonzero BPM leaves the buffer
at or above the `fps * 5` fill threshold. -/
theorem bpm_buffering_spec : ∀ (est : List ℚ → ℚ) (s : Bpm.State) (v : ℚ),
    ((pushHistory (s.fps * s.bufferSeconds) s.signalBuffer v).length < s.fps * 5 →
      (Bpm.process_frame est s (some v)).1 =
        (0, Bpm.Status.buffering
          (((pushHistory (s.fps * s.bufferSeconds) s.signalBuffer v).length : ℚ) /
            ((s.fps * 5 : ℕ) : ℚ) * 100))) ∧
    (∀ fps bufferSeconds : Nat, Bpm.Reachable fps bufferSeconds s →
      ∀ ppg : Option ℚ, (Bpm.process_frame est s ppg).1.1 ≠ 0 →
        s.fps * 5 ≤ (Bpm.process_frame est s ppg).2.signalBuffer.length) := by
  intro est s v
  constructor
  · intro h
    simp [Bpm.process_frame, h]
  · intro fps bufferSeconds hreach ppg hne
    cases ppg with
    | none =>
      exact bpm_reachable_invariant hreach hne
    | some w =>
      revert hne
      simp only [Bpm.process_frame]
      by_cases hlen :
        (pushHistory (s.fps * s.bufferSeconds) s.signalBuffer w).length < s.fps * 5
      · rw [if_pos hlen]
        intro hne
        simp only at hne
        exact absurd rfl hne
      · rw [if_neg hlen]
        intro _
        simpa using Nat.not_lt.mp hlen

/-- C7 witness: one frame into a fresh estimator at 1 fps fills 1 of the 5
required samples, so the call reports BPM 0 and buffering progress 20. -/
theorem bpm_buffering_spec_witness :
    (Bpm.process_frame (fun _ => 0) (Bpm.initState 1 10) (some 7)).1 =
      (0, Bpm.Status.buffering 20) := by
  have h := (bpm_buffering_spec (fun _ => 0) (Bpm.initState 1 10) 7).1
    (by simp [pushHistory, Bpm.initState])
  rw [h]
  norm_num [pushHistory, Bpm.initState]

/-! ### C8: ROI extraction failure mutates nothing -/

/-- C8: when forehead-ROI extraction fails (no landmarks or an empty
computed region, modelled as the `none` input), `process_frame` returns the
last-known BPM with the error marker and leaves the entire estimator state —
signal buffer, BPM history and current estimate — unchanged. -/
theorem roi_failure_no_mutation : ∀ (est : List ℚ → ℚ) (s : Bpm.State),
    Bpm.process_frame est s none = ((s.currentBpm, Bpm.Status.roiError), s) := by
  intro est s
  rfl

/-! ### C9: exception propagation in voice analysis (corrected) -/

/-- C9 counterexample: with a full enough audio buffer, an exception raised
by the `librosa.pyin` call inside `_extract_pitch` (which has no exception
handler) propagates out of `analyze_audio` instead of yielding a 0 pitch
value, refuting the claim that no feature-extraction exception escapes. -/
theorem voice_exception_counterexample :
    Voice.analyze_audio 1 [1] (Except.error ()) (Except.ok ⟨[], []⟩)
      (Except.ok []) ⟨[], [], [], []⟩ = Except.error () := by
  rfl

/-- C9 amended: only the jitter computation is guarded — an exception during
`_calculate_jitter` yields jitter 0 — while an exception raised during pitch
extraction, or during the RMS computation consumed by `_calculate_shimmer`,
propagates out of `analyze_audio`. -/
theorem voice_exception_policy : ∀ (e : Unit) (chunkSize : Nat) (buffer : List ℝ)
    (pyinJitter : Except Unit Voice.PyinData) (rms : Except Unit (List ℝ))
    (s : Voice.State),
    (Voice.calculate_jitter (Except.error e) = 0) ∧
    (chunkSize ≤ buffer.length →
      Voice.analyze_audio chunkSize buffer (Except.error e) pyinJitter rms s =
        Except.error e) ∧
    (∀ (pyinPitch : Except Unit Voice.PyinData) (pm ps : ℝ),
      chunkSize ≤ buffer.length →
      Voice.extract_pitch pyinPitch = Except.ok (pm, ps) →
      Voice.analyze_audio chunkSize buffer pyinPitch pyinJitter (Except.error e) s =
        Except.error e) := by
  intro e chunkSize buffer pyinJitter rms s
  refine ⟨rfl, ?_, ?_⟩
  · intro h
    unfold Voice.analyze_audio
    rw [if_neg (by omega)]
    rfl
  · intro pyinPitch pm ps h hpitch
    unfold Voice.analyze_audio
    rw [if_neg (by omega), hpitch]
    rfl

/-- C9 amended witness: the three guarded/unguarded cases at concrete
inputs — a raising jitter call yields 0, a raising pitch call propagates,
and a raising RMS call propagates past a successful pitch extraction. -/
theorem voice_exception_policy_witness :
    Voice.calculate_jitter (Except.error ()) = 0 ∧
    Voice.analyze_audio 2 [1, 2] (Except.error ()) (Except.ok ⟨[], []⟩)
      (Except.ok []) ⟨[], [], [], []⟩ = Except.error () ∧
    Voice.analyze_audio 1 [1] (Except.ok ⟨[some 100], [true]⟩)
      (Except.ok ⟨[], []⟩) (Except.error ()) ⟨[], [], [], []⟩ = Except.error () :=
  ⟨(voice_exception_policy () 2 [1, 2] (Except.ok ⟨[], []⟩) (Except.ok [])
      ⟨[], [], [], []⟩).1,
   (voice_exception_policy () 2 [1, 2] (Except.ok ⟨[], []⟩) (Except.ok [])
      ⟨[], [], [], []⟩).2.1 (by norm_num),
   (voice_exception_policy () 1 [1] (Except.ok ⟨[], []⟩) (Except.ok [])
      ⟨[], [], [], []⟩).2.2 (Except.ok ⟨[some 100], [true]⟩)
      (listMeanR [100]) (listStdR [100]) (by norm_num) rfl⟩

/-! ### C10: the two pulse stress computations disagree at BPM 0 -/

/-- C10: `get_stress_score` guards a zero smoothed BPM and returns 0 there,
while the inline stress computation of `process_frame` has no such guard and
reports 20 for every smoothed BPM below 50, including 0; a concrete frame
whose spectral estimate is 0 yields metrics stress 20 while
`get_stress_score` on the resulting state returns 0. -/
theorem stress_zero_guard_disagreement :
    (∀ b : ℚ, b < 50 → Bpm.inlineStressScore b = 20) ∧
    (∀ s : Bpm.State, s.currentBpm = 0 → Bpm.get_stress_score s = 0) ∧
    Bpm.inlineStressScore 0 ≠ Bpm.get_stress_score ⟨1, 10, [], [], 0⟩ ∧
    ((Bpm.process_frame (fun _ => 0) ⟨1, 10, [0, 0, 0, 0], [], 0⟩ (some 0)).1 =
      (0, Bpm.Status.metrics 0 20 5 false)) ∧
    Bpm.get_stress_score
      (Bpm.process_frame (fun _ => 0) ⟨1, 10, [0, 0, 0, 0], [], 0⟩ (some 0)).2 = 0 := by
  refine ⟨?_, ?_, ?_, ?_, ?_⟩
  · intro b hb
    unfold Bpm.inlineStressScore
    rw [if_neg (by linarith), if_pos hb]
  · intro s hs
    unfold Bpm.get_stress_score
    rw [if_pos hs]
  · norm_num [Bpm.inlineStressScore, Bpm.get_stress_score]
  · norm_num [Bpm.process_frame, pushHistory, Bpm.median, List.insertionSort,
      List.orderedInsert, Bpm.inlineStressScore]
  · norm_num [Bpm.process_frame, pushHistory, Bpm.median, List.insertionSort,
      List.orderedInsert, Bpm.get_stress_score]

/-- C10 witness: the unguarded inline rule applied at BPM 0 and the guarded
rule on a fresh estimator state. -/
theorem stress_zero_guard_disagreement_witness :
    Bpm.inlineStressScore 0 = 20 ∧
    Bpm.get_stress_score (Bpm.initState 30 10) = 0 :=
  ⟨stress_zero_guard_disagreement.1 0 (by norm_num),
   stress_zero_guard_disagreement.2.1 (Bpm.initState 30 10) rfl⟩

end LieDar
